import Mathlib

/-!
Shallow embedding of the AstroMCAD-ELAsTiCC data-access layer:
`LSST_Source` (LSST_Source-checkpoint.py) and `LSSTSourceDataSet`
(dataloader-checkpoint.py), together with theorems settling the frozen
claims about them.

Modelling conventions:
* A loaded parquet table is a list of rows; a row is an association list
  from column name to a cell, which is either a scalar or a sequence
  (polars nested list cell).
* A constructed `LSST_Source` object is its attribute dictionary: an
  association list from attribute name to a scalar or a stored sequence,
  in insertion order (`setattr` overwrites in place, appends when new).
* Fallible Python operations return `Except PyError _`; the error
  constructors mirror the Python exception classes that the underlying
  libraries raise (polars `ColumnNotFoundError`, `AttributeError`,
  `KeyError`, `IndexError`, astropy's length-mismatch `ValueError`,
  `TypeError`, `AssertionError`).
* The taxonomy mapper `get_astrophysical_class` lives in taxonomy.py,
  an external collaborator that is not part of the two source files; it
  is a pure function and is passed as an explicit parameter `tax`.
-/

namespace AstroMCAD

/-- A scalar value of a table cell: integers cover the numeric columns
(times, fluxes, flags), strings cover identifiers, class labels and
passband names. -/
inductive Scalar where
  | i (n : Int)
  | s (t : String)
deriving DecidableEq

/-- A cell of a parquet row: a plain scalar, or a nested sequence (the
per-observation time-series columns of the ELAsTiCC parquet files). -/
inductive CellValue where
  | scalar (v : Scalar)
  | seq (vs : List Scalar)
deriving DecidableEq

/-- A value stored as an attribute of an `LSST_Source` object: a scalar
(static features) or a numpy-array-like sequence (time-series features). -/
inductive AttrValue where
  | scalar (v : Scalar)
  | series (vs : List Scalar)
deriving DecidableEq

/-- The Python exceptions the modelled code can raise. -/
inductive PyError where
  | columnNotFound (c : String)
  | attributeError (a : String)
  | keyError (k : String)
  | indexError
  | valueError
  | typeError
  | assertionError (m : String)
deriving DecidableEq

abbrev Row := List (String × CellValue)
abbrev AttrMap := List (String × AttrValue)

/-- Column lookup on a row, `parquet_row[key]` (None when the column is
absent, in which case polars raises `ColumnNotFoundError`). -/
def rowGet? (r : Row) (c : String) : Option CellValue :=
  (r.find? (fun p => p.1 = c)).map (fun p => p.2)

/-- Column lookup raising polars `ColumnNotFoundError` when absent. -/
def getColE (r : Row) (c : String) : Except PyError CellValue :=
  match rowGet? r c with
  | some v => .ok v
  | none => .error (.columnNotFound c)

/-- Python `setattr`: overwrite in place when the attribute exists,
append when it is new (insertion-ordered attribute dictionary). -/
def setattr : AttrMap → String → AttrValue → AttrMap
  | [], k, v => [(k, v)]
  | (k', v') :: rest, k, v =>
    if k' = k then (k, v) :: rest else (k', v') :: setattr rest k v

/-- Attribute lookup, `getattr(obj, name, None)` flavour. -/
def getattr? (m : AttrMap) (k : String) : Option AttrValue :=
  (m.find? (fun p => p.1 = k)).map (fun p => p.2)

/-- `col.to_numpy()[0]` on a one-row column: the scalar for a scalar
column, the inner array for a nested-list column. Total: numpy hands
back the single element of the length-one column either way. -/
def extractFirst : CellValue → AttrValue
  | .scalar v => .scalar v
  | .seq vs => .series vs

/-- `parquet_row[key][0].to_numpy()`: element 0 of a nested-list column
is the inner list, converted to an array; on a scalar column element 0
is a plain Python scalar, which has no `.to_numpy` attribute. -/
def extractSeriesCell : CellValue → Except PyError AttrValue
  | .scalar _ => .error (.attributeError "to_numpy")
  | .seq vs => .ok (.series vs)

/-- An `LSST_Source` object, i.e. its attribute dictionary. -/
structure LSST_Source where
  attrs : AttrMap
deriving DecidableEq

namespace LSST_Source

/-- List of time series features actually stored in the instance of the
class. -/
def time_series_features : List String :=
  ["MJD", "BAND", "PHOTFLAG", "FLUXCAL", "FLUXCALERR"]

/-- List of other features actually stored in the instance of the
class. -/
def other_features : List String :=
  ["RA", "DEC", "MWEBV", "MWEBV_ERR", "REDSHIFT_HELIO",
   "REDSHIFT_HELIO_ERR", "VPEC", "VPEC_ERR", "HOSTGAL_FLAG",
   "HOSTGAL_PHOTOZ", "HOSTGAL_PHOTOZ_ERR", "HOSTGAL_SPECZ",
   "HOSTGAL_SPECZ_ERR", "HOSTGAL_RA", "HOSTGAL_DEC", "HOSTGAL_SNSEP",
   "HOSTGAL_DDLR", "HOSTGAL_CONFUSION", "HOSTGAL_LOGMASS",
   "HOSTGAL_LOGMASS_ERR", "HOSTGAL_LOGSFR", "HOSTGAL_LOGSFR_ERR",
   "HOSTGAL_LOGsSFR", "HOSTGAL_LOGsSFR_ERR", "HOSTGAL_COLOR",
   "HOSTGAL_COLOR_ERR", "HOSTGAL_ELLIPTICITY", "HOSTGAL_MAG_u",
   "HOSTGAL_MAG_g", "HOSTGAL_MAG_r", "HOSTGAL_MAG_i", "HOSTGAL_MAG_z",
   "HOSTGAL_MAG_Y", "HOSTGAL_MAGERR_u", "HOSTGAL_MAGERR_g",
   "HOSTGAL_MAGERR_r", "HOSTGAL_MAGERR_i", "HOSTGAL_MAGERR_z",
   "HOSTGAL_MAGERR_Y"]

/-- Additional features computed based on time_series_features and
other_features mentioned in SNANA fits (declared in the source, never
stored by `__init__`). -/
def custom_engineered_features : List String :=
  ["MW_plane_flag", "ELAIS_S1_flag", "XMM-LSS_flag",
   "Extended_Chandra_Deep_Field-South_flag", "COSMOS_flag"]

/-- Pass band to color dict. -/
def colors : List (String × String) :=
  [("u", "blue"), ("g", "green"), ("r", "red"),
   ("i", "teal"), ("z", "orange"), ("Y", "purple")]

/-- The `for key in parquet_row.columns:` loop of `__init__`: static
features are stored as extracted scalars, time-series features as
extracted arrays, every other column is skipped. -/
def initLoop : AttrMap → List (String × CellValue) → Except PyError AttrMap
  | m, [] => .ok m
  | m, (key, cell) :: rest =>
    if key ∈ other_features then
      initLoop (setattr m key (extractFirst cell)) rest
    else if key ∈ time_series_features then
      match extractSeriesCell cell with
      | .ok v => initLoop (setattr m key v) rest
      | .error e => .error e
    else initLoop m rest

/-- `LSST_Source.__init__(parquet_row)`: store `ELASTICC_class`, `SNID`,
the derived `astrophysical_class` (via the external taxonomy mapper
`tax`), then loop over the row's columns storing the recognized static
and time-series features. -/
def init (tax : AttrValue → AttrValue) (parquet_row : Row) :
    Except PyError LSST_Source := do
  let ecCell ← getColE parquet_row "ELASTICC_class"
  let snidCell ← getColE parquet_row "SNID"
  let ec := extractFirst ecCell
  let m0 :=
    setattr (setattr (setattr [] "ELASTICC_class" ec)
      "SNID" (extractFirst snidCell)) "astrophysical_class" (tax ec)
  let m ← initLoop m0 parquet_row
  pure ⟨m⟩

end LSST_Source

/-- Attribute read `self.name`, raising `AttributeError` when absent. -/
def getattrE (s : LSST_Source) (a : String) : Except PyError AttrValue :=
  match getattr? s.attrs a with
  | some v => .ok v
  | none => .error (.attributeError a)

/-- Read a time-series attribute as a sequence. Records built by
`LSST_Source.init` only ever store sequences under time-series names; a
scalar there would make the numpy/astropy expressions of the source
ill-typed, modelled as `TypeError`. -/
def getSeriesE (s : LSST_Source) (a : String) : Except PyError (List Scalar) := do
  match ← getattrE s a with
  | .series vs => .ok vs
  | .scalar _ => .error .typeError

/-- Error-propagating list map, the order-preserving loop-with-append
pattern used throughout the source. -/
def mapE (f : α → Except PyError β) : List α → Except PyError (List β)
  | [] => .ok []
  | x :: xs => do
    let y ← f x
    let ys ← mapE f xs
    .ok (y :: ys)

/-- `xs[i]` on a Python list / numpy array: `IndexError` out of range. -/
def nthE (xs : List α) (i : Nat) : Except PyError α :=
  match xs.get? i with
  | some v => .ok v
  | none => .error .indexError

/-- An astropy `Table`: named columns in insertion order, plus the
`meta` key/value mapping. -/
structure Table where
  cols : List (String × List Scalar)
  meta : AttrMap
deriving DecidableEq

/-- An empty astropy `Table()`. -/
def Table.empty : Table := ⟨[], []⟩

/-- `len(table)`: the number of rows, zero while no column is set. -/
def Table.len (t : Table) : Nat :=
  match t.cols with
  | [] => 0
  | (_, c) :: _ => c.length

/-- `table[name] = col`: the first column assignment fixes the row
count; a later assignment whose length disagrees with it raises
astropy's inconsistent-length `ValueError`. The five column names used
by the source are pairwise distinct, so plain append suffices. -/
def Table.setCol (t : Table) (name : String) (col : List Scalar) :
    Except PyError Table :=
  match t.cols with
  | [] => .ok ⟨[(name, col)], t.meta⟩
  | _ =>
    if col.length = t.len then .ok ⟨t.cols ++ [(name, col)], t.meta⟩
    else .error .valueError

/-- `table[name]` as an optional read (for stating theorems). -/
def Table.getCol? (t : Table) (name : String) : Option (List Scalar) :=
  (t.cols.find? (fun p => p.1 = name)).map (fun p => p.2)

/-- Numpy scalar subtraction: numeric minus numeric, `TypeError`
otherwise. -/
def subScalar (first v : Scalar) : Except PyError Scalar :=
  match v, first with
  | .i a, .i b => .ok (Scalar.i (a - b))
  | _, _ => .error .typeError

/-- `self.MJD - self.MJD[0]`: numpy elementwise subtraction of the first
entry; `IndexError` on an empty array, `TypeError` on non-numeric data. -/
def subFirst (mjd : List Scalar) : Except PyError (List Scalar) := do
  let first ← nthE mjd 0
  mapE (subScalar first) mjd

namespace LSST_Source

/-- `LSST_Source.get_event_table(self)`: build the per-observation table
column by column, run the consistency `assert`, then collect every
static feature into the table's `meta` mapping via `getattr`. -/
def get_event_table (s : LSST_Source) : Except PyError Table := do
  let table := Table.empty
  let mjd ← getSeriesE s "MJD"
  let timeCol ← subFirst mjd
  let table ← table.setCol "time" timeCol
  let pf ← getSeriesE s "PHOTFLAG"
  let table ← table.setCol "photflag" pf
  let fc ← getSeriesE s "FLUXCAL"
  let table ← table.setCol "flux" fc
  let fe ← getSeriesE s "FLUXCALERR"
  let table ← table.setCol "fluxErr" fe
  let bd ← getSeriesE s "BAND"
  let table ← table.setCol "passband" bd
  if table.len = mjd.length then
    pure ()
  else
    throw (.assertionError
      "Length of time series tensor does not match the number of mjd values.")
  let feature_static ← mapE (fun f => do
    let v ← getattrE s f
    pure (f, v)) other_features
  pure { table with meta := feature_static }

/-- `self.colors[band]`: dict lookup keyed by the passband string;
a non-string or unknown key raises `KeyError`. -/
def lookupColor (b : Scalar) : Option String :=
  match b with
  | .s t => (colors.find? (fun p => p.1 = t)).map (fun p => p.2)
  | .i _ => none

/-- The key under which a failed color lookup is reported. -/
def scalarKey : Scalar → String
  | .s t => t
  | .i n => toString n

/-- `c = [self.colors[band] for band in self.BAND]`: the
per-observation color list, `KeyError` at the first unknown band. -/
def colorize (bd : List Scalar) : Except PyError (List String) :=
  mapE (fun b =>
    match lookupColor b with
    | some col => .ok col
    | none => .error (.keyError (scalarKey b))) bd

/-- One marker of `np.where((self.PHOTFLAG & 4096) != 0, '*', '.')`. -/
def detMark (f : Scalar) : Except PyError String :=
  match f with
  | .i n => .ok (if n.land 4096 ≠ 0 then "*" else ".")
  | .s _ => .error .typeError

/-- One point drawn by `plt.errorbar` in the plot loop. -/
structure PlotPoint where
  x : Scalar
  y : Scalar
  yerr : Scalar
  color : String
  fmt : String
deriving DecidableEq

/-- `LSST_Source.plot_flux_curve(self)`: colorize by passband, compute
the detection markers, then draw one error-barred point per
observation. The rendering side effects are modelled by returning the
list of drawn points; legend patches and labels never fail and carry no
data, so they are omitted from the result. -/
def plot_flux_curve (s : LSST_Source) :
    Except PyError (List PlotPoint) := do
  let bd ← getSeriesE s "BAND"
  let c ← colorize bd
  let pf ← getSeriesE s "PHOTFLAG"
  let fmts ← mapE detMark pf
  let mjd ← getSeriesE s "MJD"
  mapE (fun i => do
    let x ← nthE mjd i
    let fcl ← getSeriesE s "FLUXCAL"
    let y ← nthE fcl i
    let fel ← getSeriesE s "FLUXCALERR"
    let ye ← nthE fel i
    let ci ← nthE c i
    let fi ← nthE fmts i
    pure (PlotPoint.mk x y ye ci fi)) (List.range mjd.length)

/-- Python tuple unpacking `a, b, c, d = obj` iterates `obj`;
`LSST_Source` defines neither `__iter__` nor a sequence protocol, so
the interpreter raises `TypeError: cannot unpack non-iterable
LSST_Source object`, whatever the object's attributes hold. -/
def unpack4 (_ : LSST_Source) :
    Except PyError (AttrValue × AttrValue × AttrValue × AttrValue) :=
  .error .typeError

/-- Stand-in for the numpy shape reads `ts_np.shape[1]` /
`static_np.shape[0]` of `get_dimensions`; unreachable, because
`unpack4` never succeeds. -/
def width : AttrValue → Nat
  | .scalar _ => 0
  | .series vs => vs.length

end LSST_Source

/-- `LSSTSourceDataSet`: the eagerly loaded parquet table. The
constructor's file reading and logging are outside the model; a dataset
is identified with the table it loaded. -/
structure LSSTSourceDataSet where
  parquet : List Row
deriving DecidableEq

namespace LSSTSourceDataSet

/-- `self.num_sample = self.parquet.shape[0]`, also `__len__`. -/
def num_sample (ds : LSSTSourceDataSet) : Nat := ds.parquet.length

/-- `__getitem__(self, idx)`: slice row `idx` from the loaded table
(polars raises `IndexError` out of range) and construct an
`LSST_Source` from it. -/
def getitem (tax : AttrValue → AttrValue) (ds : LSSTSourceDataSet)
    (idx : Nat) : Except PyError LSST_Source :=
  match ds.parquet.get? idx with
  | some row => LSST_Source.init tax row
  | none => .error .indexError

/-- `get_dimensions(self)`: unpack four values from `__getitem__(0)` and
return the two widths. The unpack target is a single `LSST_Source`
object, so `LSST_Source.unpack4` always raises. -/
def get_dimensions (tax : AttrValue → AttrValue)
    (ds : LSSTSourceDataSet) : Except PyError (List (String × Nat)) := do
  let s ← getitem tax ds 0
  let (ts_np, static_np, _class_labels, _last) ← LSST_Source.unpack4 s
  pure [("ts", LSST_Source.width ts_np), ("static", LSST_Source.width static_np)]

/-- `self.parquet['ELASTICC_class']`: the full column, polars
`ColumnNotFoundError` when a row lacks it. -/
def columnE (ds : LSSTSourceDataSet) (c : String) :
    Except PyError (List CellValue) :=
  mapE (fun r => getColE r c) ds.parquet

/-- The `for idx in range(self.num_sample)` loop of `get_labels`,
reading `ELASTICC_labels[idx]` and appending the mapped class; `i` is
the next index, the second argument counts the remaining iterations. -/
def labelLoop (tax : AttrValue → AttrValue) (col : List CellValue) :
    Nat → Nat → Except PyError (List AttrValue)
  | _, 0 => .ok []
  | i, fuel + 1 => do
    let cell ← nthE col i
    let rest ← labelLoop tax col (i + 1) fuel
    .ok (tax (extractFirst cell) :: rest)

/-- `get_labels(self)`: read the fine-grained class column, then map
every entry through the taxonomy mapper in row order. -/
def get_labels (tax : AttrValue → AttrValue) (ds : LSSTSourceDataSet) :
    Except PyError (List AttrValue) := do
  let ELASTICC_labels ← columnE ds "ELASTICC_class"
  labelLoop tax ELASTICC_labels 0 ds.num_sample

end LSSTSourceDataSet

/-- Whether a cell is a nested sequence. -/
def CellValue.isSeq : CellValue → Bool
  | .scalar _ => false
  | .seq _ => true

/-- The row carries the two columns `__init__` reads unconditionally. -/
def BaseCols (r : Row) : Prop :=
  (rowGet? r "ELASTICC_class").isSome = true ∧ (rowGet? r "SNID").isSome = true

/-- Every recognized time-series column of the row holds a nested
sequence (the shape `__init__`'s `[0].to_numpy()` extraction needs). -/
def TsShaped (r : Row) : Prop :=
  ∀ p ∈ r, p.1 ∈ LSST_Source.time_series_features → p.2.isSeq = true

/-- A row on which `LSST_Source.__init__` completes. -/
def RowOk (r : Row) : Prop := BaseCols r ∧ TsShaped r

/-- The record carries every recognized static feature (what the
`feature_static` loop of `get_event_table` reads). -/
def StaticOk (s : LSST_Source) : Prop :=
  ∀ f ∈ LSST_Source.other_features, (getattr? s.attrs f).isSome = true

deriving instance DecidableEq for Except

instance (r : Row) : Decidable (BaseCols r) :=
  inferInstanceAs (Decidable (_ ∧ _))

instance (r : Row) : Decidable (TsShaped r) :=
  List.decidableBAll _ r

instance (r : Row) : Decidable (RowOk r) :=
  inferInstanceAs (Decidable (_ ∧ _))

instance (s : LSST_Source) : Decidable (StaticOk s) :=
  List.decidableBAll _ LSST_Source.other_features

/-- A concrete taxonomy mapper for witnesses and scenarios: the mapping
from the fine labels SNIa / SNII to the coarse labels Ia / CC. -/
def taxEx : AttrValue → AttrValue
  | .scalar (.s "SNIa") => .scalar (.s "Ia")
  | .scalar (.s "SNII") => .scalar (.s "CC")
  | v => v

/-- The attribute names that `__init__` always sets before its column
loop. -/
def special_attrs : List String :=
  ["ELASTICC_class", "SNID", "astrophysical_class"]

/-- The attributes that the `__init__` column loop appends, in order:
one entry per recognized column, nothing for the rest. Under `TsShaped`
recognized time-series cells are sequences, for which
`extractSeriesCell` agrees with `extractFirst`. -/
def processedCols : List (String × CellValue) → AttrMap
  | [] => []
  | (k, cell) :: rest =>
    if k ∈ LSST_Source.other_features ∨ k ∈ LSST_Source.time_series_features then
      (k, extractFirst cell) :: processedCols rest
    else processedCols rest

/-- Whether a raised error is the designed `assert` of
`get_event_table`. -/
def errIsAssertion : Except PyError Table → Bool
  | .error (.assertionError _) => true
  | _ => false

/-- Whether a raised error is an attribute-lookup (`AttributeError`)
failure. -/
def errIsAttributeError : Except PyError Table → Bool
  | .error (.attributeError _) => true
  | _ => false

/-- The minimum of a list of integers (zero for an empty list). -/
def minOfList : List Int → Int
  | [] => 0
  | x :: xs => xs.foldl min x

/-- Modelled from the spec: the time column as the specification words
it — "differences from the minimum observed time", i.e. each
observation time minus the minimum of the observed times. Used only to
compare the spec claim against the source, whose `get_event_table`
subtracts the FIRST entry instead. -/
def specTimeColumn (mjd : List Int) : List Scalar :=
  mjd.map (fun a => Scalar.i (a - minOfList mjd))

/-- A fully populated witness record: the identity attributes, every
recognized static feature as an integer scalar, and the five
time-series features with two observations each. The MJD values are 5
then 3, deliberately NOT ascending, so the first observation is not the
earliest one. -/
def sFull : LSST_Source :=
  ⟨[("ELASTICC_class", .scalar (.s "SNIa")),
    ("SNID", .scalar (.i 1)),
    ("astrophysical_class", .scalar (.s "Ia"))] ++
   LSST_Source.other_features.map (fun f => (f, AttrValue.scalar (.i 0))) ++
   [("MJD", .series ([5, 3].map Scalar.i)),
    ("BAND", .series [.s "u", .s "g"]),
    ("PHOTFLAG", .series [.i 0, .i 4096]),
    ("FLUXCAL", .series [.i 10, .i 20]),
    ("FLUXCALERR", .series [.i 1, .i 2])]⟩

/-- A row whose time-series columns have mutually inconsistent lengths:
MJD, PHOTFLAG, FLUXCAL, FLUXCALERR carry five observations but BAND
carries only three. No recognized static column is present. -/
def rowMM : Row :=
  [("ELASTICC_class", .scalar (.s "SNIa")),
   ("SNID", .scalar (.i 2)),
   ("MJD", .seq ([0, 1, 2, 3, 4].map Scalar.i)),
   ("PHOTFLAG", .seq ([0, 0, 0, 0, 0].map Scalar.i)),
   ("FLUXCAL", .seq ([1, 2, 3, 4, 5].map Scalar.i)),
   ("FLUXCALERR", .seq ([1, 1, 1, 1, 1].map Scalar.i)),
   ("BAND", .seq [.s "u", .s "g", .s "r"])]

/-- The record `LSST_Source.init taxEx rowMM` constructs: the mismatched
sequences are stored as-is. -/
def sMM : LSST_Source :=
  ⟨[("ELASTICC_class", .scalar (.s "SNIa")),
    ("SNID", .scalar (.i 2)),
    ("astrophysical_class", .scalar (.s "Ia")),
    ("MJD", .series ([0, 1, 2, 3, 4].map Scalar.i)),
    ("PHOTFLAG", .series ([0, 0, 0, 0, 0].map Scalar.i)),
    ("FLUXCAL", .series ([1, 2, 3, 4, 5].map Scalar.i)),
    ("FLUXCALERR", .series ([1, 1, 1, 1, 1].map Scalar.i)),
    ("BAND", .series [.s "u", .s "g", .s "r"])]⟩

/-- A record with consistent two-observation time series but no static
features at all. -/
def sNoStatic : LSST_Source :=
  ⟨[("ELASTICC_class", .scalar (.s "SNII")),
    ("SNID", .scalar (.i 3)),
    ("astrophysical_class", .scalar (.s "CC")),
    ("MJD", .series ([0, 1].map Scalar.i)),
    ("PHOTFLAG", .series ([0, 0].map Scalar.i)),
    ("FLUXCAL", .series ([7, 8].map Scalar.i)),
    ("FLUXCALERR", .series ([1, 1].map Scalar.i)),
    ("BAND", .series [.s "u", .s "g"])]⟩

/-- A record whose passband sequence contains the unrecognized band
"q". -/
def sBadBand : LSST_Source :=
  ⟨[("BAND", .series [.s "u", .s "q"])]⟩

/-- A row carrying one static column, one time-series column and one
unrecognized column. -/
def rowC5 : Row :=
  [("ELASTICC_class", .scalar (.s "SNII")),
   ("SNID", .scalar (.i 9)),
   ("RA", .scalar (.i 42)),
   ("MJD", .seq ([1, 2].map Scalar.i)),
   ("UNKNOWN_COLUMN", .scalar (.i 13))]

/-- A one-row witness dataset. -/
def dsEx : LSSTSourceDataSet :=
  ⟨[[("ELASTICC_class", CellValue.scalar (.s "SNIa")),
     ("SNID", CellValue.scalar (.i 7))]]⟩

/-- The record `__getitem__(0)` of `dsEx` constructs. -/
def rEx : LSST_Source :=
  ⟨[("ELASTICC_class", .scalar (.s "SNIa")),
    ("SNID", .scalar (.i 7)),
    ("astrophysical_class", .scalar (.s "Ia"))]⟩

/-- The three-row dataset of the `get_labels` scenario: fine labels
SNIa, SNII, SNIa. -/
def ds3 : LSSTSourceDataSet :=
  ⟨[[("ELASTICC_class", CellValue.scalar (.s "SNIa")),
     ("SNID", CellValue.scalar (.i 1))],
    [("ELASTICC_class", CellValue.scalar (.s "SNII")),
     ("SNID", CellValue.scalar (.i 2))],
    [("ELASTICC_class", CellValue.scalar (.s "SNIa")),
     ("SNID", CellValue.scalar (.i 3))]]⟩

section AssocLemmas

theorem getattr?_append (a b : AttrMap) (k : String) :
    getattr? (a ++ b) k = (getattr? a k).or (getattr? b k) := by
  unfold getattr?
  rw [List.find?_append]
  cases h : a.find? (fun p => p.1 = k) <;> simp

theorem getattr?_eq_none (m : AttrMap) (k : String)
    (h : ∀ p ∈ m, p.1 ≠ k) : getattr? m k = none := by
  unfold getattr?
  rw [List.find?_eq_none.mpr]
  · rfl
  · intro p hp
    simpa using h p hp

theorem setattr_eq_append (m : AttrMap) (k : String) (v : AttrValue)
    (h : ∀ p ∈ m, p.1 ≠ k) : setattr m k v = m ++ [(k, v)] := by
  induction m with
  | nil => rfl
  | cons q rest ih =>
    have hq : q.1 ≠ k := h q (List.mem_cons_self q rest)
    cases q with
    | mk k' v' =>
      simp only [setattr, if_neg hq, List.cons_append, List.cons.injEq, true_and]
      exact ih (fun p hp => h p (List.mem_cons_of_mem _ hp))

end AssocLemmas

section InitLemmas

theorem initLoop_closed (cols : List (String × CellValue)) :
    ∀ m : AttrMap,
    (∀ p ∈ cols, p.1 ∈ LSST_Source.time_series_features → p.2.isSeq = true) →
    (∀ p ∈ cols,
      (p.1 ∈ LSST_Source.other_features ∨ p.1 ∈ LSST_Source.time_series_features) →
      ∀ q ∈ m, q.1 ≠ p.1) →
    (cols.map Prod.fst).Nodup →
    LSST_Source.initLoop m cols = .ok (m ++ processedCols cols) := by
  induction cols with
  | nil =>
    intro m _ _ _
    simp [LSST_Source.initLoop, processedCols]
  | cons hd tl ih =>
    intro m hts hdisj hnd
    obtain ⟨k, cell⟩ := hd
    have hndtl : (tl.map Prod.fst).Nodup := (List.nodup_cons.mp hnd).2
    have hknotl : k ∉ tl.map Prod.fst := (List.nodup_cons.mp hnd).1
    by_cases ho : k ∈ LSST_Source.other_features
    · have hfresh : ∀ q ∈ m, q.1 ≠ k :=
        hdisj (k, cell) (List.mem_cons_self _ _) (Or.inl ho)
      have hset := setattr_eq_append m k (extractFirst cell) hfresh
      have hrec := ih (m ++ [(k, extractFirst cell)])
        (fun p hp h => hts p (List.mem_cons_of_mem _ hp) h)
        (by
          intro p hp hrecog q hq
          rcases List.mem_append.mp hq with hq | hq
          · exact hdisj p (List.mem_cons_of_mem _ hp) hrecog q hq
          · have : q = (k, extractFirst cell) := List.mem_singleton.mp hq
            subst this
            intro hcontra
            have hk : k = p.1 := hcontra
            apply hknotl
            rw [hk]
            exact List.mem_map_of_mem Prod.fst hp)
        hndtl
      simp only [LSST_Source.initLoop, if_pos ho, hset, hrec,
        processedCols, if_pos (Or.inl ho), List.append_assoc,
        List.singleton_append]
    · by_cases hs : k ∈ LSST_Source.time_series_features
      · have hseq : cell.isSeq = true :=
          hts (k, cell) (List.mem_cons_self _ _) hs
        obtain ⟨vs, hvs⟩ : ∃ vs, cell = CellValue.seq vs := by
          cases cell with
          | scalar v => simp [CellValue.isSeq] at hseq
          | seq vs => exact ⟨vs, rfl⟩
        subst hvs
        have hfresh : ∀ q ∈ m, q.1 ≠ k :=
          hdisj (k, CellValue.seq vs) (List.mem_cons_self _ _) (Or.inr hs)
        have hset := setattr_eq_append m k (AttrValue.series vs) hfresh
        have hrec := ih (m ++ [(k, AttrValue.series vs)])
          (fun p hp h => hts p (List.mem_cons_of_mem _ hp) h)
          (by
            intro p hp hrecog q hq
            rcases List.mem_append.mp hq with hq | hq
            · exact hdisj p (List.mem_cons_of_mem _ hp) hrecog q hq
            · have : q = (k, AttrValue.series vs) := List.mem_singleton.mp hq
              subst this
              intro hcontra
              have hk : k = p.1 := hcontra
              apply hknotl
              rw [hk]
              exact List.mem_map_of_mem Prod.fst hp)
          hndtl
        simp only [LSST_Source.initLoop, if_neg ho, if_pos hs,
          extractSeriesCell, hset, hrec, processedCols,
          if_pos (Or.inr hs), extractFirst, List.append_assoc,
          List.singleton_append]
      · have hrec := ih m
          (fun p hp h => hts p (List.mem_cons_of_mem _ hp) h)
          (fun p hp hrecog => hdisj p (List.mem_cons_of_mem _ hp) hrecog)
          hndtl
        have hnotrecog : ¬(k ∈ LSST_Source.other_features ∨
            k ∈ LSST_Source.time_series_features) := by
          intro h
          rcases h with h | h
          · exact ho h
          · exact hs h
        simp only [LSST_Source.initLoop, if_neg ho, if_neg hs, hrec,
          processedCols, if_neg hnotrecog]

theorem bindOk {α β : Type} (a : α) (f : α → Except PyError β) :
    (Except.ok a >>= f) = f a := rfl

theorem bindErr {α β : Type} (e : PyError) (f : α → Except PyError β) :
    ((Except.error e : Except PyError α) >>= f) = .error e := rfl

theorem pureOk {α : Type} (a : α) :
    (pure a : Except PyError α) = .ok a := rfl

theorem bindPure {α β : Type} (a : α) (f : α → Except PyError β) :
    ((pure a : Except PyError α) >>= f) = f a := rfl

theorem recognized_not_special {k : String}
    (h : k ∈ LSST_Source.other_features ∨ k ∈ LSST_Source.time_series_features) :
    k ≠ "ELASTICC_class" ∧ k ≠ "SNID" ∧ k ≠ "astrophysical_class" := by
  refine ⟨?_, ?_, ?_⟩ <;> intro he <;> subst he <;> revert h <;> decide

theorem init_closed (tax : AttrValue → AttrValue) (row : Row)
    (ecCell snCell : CellValue)
    (hec : rowGet? row "ELASTICC_class" = some ecCell)
    (hsn : rowGet? row "SNID" = some snCell)
    (hts : TsShaped row) (hnd : (row.map Prod.fst).Nodup) :
    LSST_Source.init tax row = .ok
      ⟨("ELASTICC_class", extractFirst ecCell) ::
       ("SNID", extractFirst snCell) ::
       ("astrophysical_class", tax (extractFirst ecCell)) ::
       processedCols row⟩ := by
  have hm0 : setattr (setattr (setattr [] "ELASTICC_class" (extractFirst ecCell))
      "SNID" (extractFirst snCell)) "astrophysical_class"
      (tax (extractFirst ecCell)) =
      [("ELASTICC_class", extractFirst ecCell),
       ("SNID", extractFirst snCell),
       ("astrophysical_class", tax (extractFirst ecCell))] := by
    simp [setattr]
  have hloop := initLoop_closed row
    [("ELASTICC_class", extractFirst ecCell),
     ("SNID", extractFirst snCell),
     ("astrophysical_class", tax (extractFirst ecCell))]
    hts
    (by
      intro p hp hrecog q hq
      obtain ⟨h1, h2, h3⟩ := recognized_not_special hrecog
      simp only [List.mem_cons, List.not_mem_nil, or_false] at hq
      rcases hq with rfl | rfl | rfl
      · exact fun hcontra => h1 hcontra.symm
      · exact fun hcontra => h2 hcontra.symm
      · exact fun hcontra => h3 hcontra.symm)
    hnd
  simp only [LSST_Source.init, getColE, hec, hsn, bindOk, hm0, hloop, pureOk]
  rfl

theorem initLoop_ok (cols : List (String × CellValue)) :
    ∀ m : AttrMap,
    (∀ p ∈ cols, p.1 ∈ LSST_Source.time_series_features → p.2.isSeq = true) →
    ∃ m', LSST_Source.initLoop m cols = .ok m' := by
  induction cols with
  | nil => exact fun m _ => ⟨m, rfl⟩
  | cons hd tl ih =>
    intro m hts
    obtain ⟨k, cell⟩ := hd
    have htl : ∀ p ∈ tl, p.1 ∈ LSST_Source.time_series_features → p.2.isSeq = true :=
      fun p hp => hts p (List.mem_cons_of_mem _ hp)
    by_cases ho : k ∈ LSST_Source.other_features
    · obtain ⟨m', hm'⟩ := ih (setattr m k (extractFirst cell)) htl
      exact ⟨m', by simp only [LSST_Source.initLoop, if_pos ho, hm']⟩
    · by_cases hs : k ∈ LSST_Source.time_series_features
      · have hseq : cell.isSeq = true := hts (k, cell) (List.mem_cons_self _ _) hs
        obtain ⟨vs, hvs⟩ : ∃ vs, cell = CellValue.seq vs := by
          cases cell with
          | scalar v => simp [CellValue.isSeq] at hseq
          | seq vs => exact ⟨vs, rfl⟩
        subst hvs
        obtain ⟨m', hm'⟩ := ih (setattr m k (AttrValue.series vs)) htl
        exact ⟨m', by
          simp only [LSST_Source.initLoop, if_neg ho, if_pos hs,
            extractSeriesCell, hm']⟩
      · obtain ⟨m', hm'⟩ := ih m htl
        exact ⟨m', by simp only [LSST_Source.initLoop, if_neg ho, if_neg hs, hm']⟩

theorem init_ok (tax : AttrValue → AttrValue) (row : Row)
    (h : RowOk row) : ∃ s, LSST_Source.init tax row = .ok s := by
  obtain ⟨⟨hec, hsn⟩, hts⟩ := h
  obtain ⟨ecCell, hec'⟩ := Option.isSome_iff_exists.mp hec
  obtain ⟨snCell, hsn'⟩ := Option.isSome_iff_exists.mp hsn
  obtain ⟨m', hm'⟩ := initLoop_ok row
    (setattr (setattr (setattr [] "ELASTICC_class" (extractFirst ecCell))
      "SNID" (extractFirst snCell)) "astrophysical_class"
      (tax (extractFirst ecCell))) hts
  exact ⟨⟨m'⟩, by
    simp only [LSST_Source.init, getColE, hec', hsn', bindOk, hm', pureOk]⟩

end InitLemmas

section EventTableLemmas

theorem getSeriesE_ok {s : LSST_Source} {a : String} {vs : List Scalar}
    (h : getattr? s.attrs a = some (.series vs)) : getSeriesE s a = .ok vs := by
  simp only [getSeriesE, getattrE, h, bindOk]

theorem mapE_subScalar_int (x : Int) (l : List Int) :
    mapE (subScalar (Scalar.i x)) (l.map Scalar.i) =
      .ok (l.map (fun a => Scalar.i (a - x))) := by
  induction l with
  | nil => rfl
  | cons y ys ih =>
    simp only [List.map_cons, mapE, subScalar, bindOk, ih]

theorem subFirst_int (x : Int) (xs : List Int) :
    subFirst ((x :: xs).map Scalar.i) =
      .ok ((x :: xs).map (fun a => Scalar.i (a - x))) := by
  simp only [subFirst, List.map_cons, nthE, List.get?, bindOk]
  exact mapE_subScalar_int x (x :: xs)

theorem staticMeta_ok (s : LSST_Source) :
    ∀ l : List String, (∀ f ∈ l, (getattr? s.attrs f).isSome = true) →
    ∃ out : AttrMap,
      mapE (fun f => do
        let v ← getattrE s f
        pure (f, v)) l = .ok out := by
  intro l
  induction l with
  | nil => exact fun _ => ⟨[], rfl⟩
  | cons f fs ih =>
    intro h
    obtain ⟨v, hv⟩ := Option.isSome_iff_exists.mp (h f (List.mem_cons_self _ _))
    obtain ⟨out, hout⟩ := ih (fun g hg => h g (List.mem_cons_of_mem _ hg))
    have hhead : getattrE s f = .ok v := by simp [getattrE, hv]
    refine ⟨(f, v) :: out, ?_⟩
    simp only [mapE, hhead, bindOk, bindPure, hout]

theorem staticMeta_shape (s : LSST_Source) :
    ∀ l : List String,
    (∃ out : AttrMap,
      mapE (fun f => do
        let v ← getattrE s f
        pure (f, v)) l = .ok out) ∨
    (∃ g, mapE (fun f => do
        let v ← getattrE s f
        pure (f, v)) l = .error (.attributeError g)) := by
  intro l
  induction l with
  | nil => exact Or.inl ⟨[], rfl⟩
  | cons f fs ih =>
    cases hv : getattr? s.attrs f with
    | none =>
      refine Or.inr ⟨f, ?_⟩
      have hhead : getattrE s f = .error (.attributeError f) := by
        simp [getattrE, hv]
      simp only [mapE, hhead, bindErr]
    | some v =>
      have hhead : getattrE s f = .ok v := by simp [getattrE, hv]
      rcases ih with ⟨out, hout⟩ | ⟨g, hg⟩
      · refine Or.inl ⟨(f, v) :: out, ?_⟩
        simp only [mapE, hhead, bindOk, bindPure, hout]
      · refine Or.inr ⟨g, ?_⟩
        simp only [mapE, hhead, bindOk, bindPure, hg, bindErr]

theorem staticMeta_err (s : LSST_Source) :
    ∀ l : List String, (∃ f ∈ l, getattr? s.attrs f = none) →
    ∃ g, mapE (fun f => do
        let v ← getattrE s f
        pure (f, v)) l = .error (.attributeError g) := by
  intro l
  induction l with
  | nil => rintro ⟨f, hf, -⟩; exact absurd hf (List.not_mem_nil f)
  | cons f fs ih =>
    rintro ⟨g, hg, hnone⟩
    cases hv : getattr? s.attrs f with
    | none =>
      refine ⟨f, ?_⟩
      have hhead : getattrE s f = .error (.attributeError f) := by
        simp [getattrE, hv]
      simp only [mapE, hhead, bindErr]
    | some v =>
      have hhead : getattrE s f = .ok v := by simp [getattrE, hv]
      have hgfs : g ∈ fs := by
        rcases List.mem_cons.mp hg with rfl | h
        · rw [hv] at hnone; exact absurd hnone (by simp)
        · exact h
      obtain ⟨g', hg'⟩ := ih ⟨g, hgfs, hnone⟩
      refine ⟨g', ?_⟩
      simp only [mapE, hhead, bindOk, bindPure, hg', bindErr]

theorem get_event_table_ok (s : LSST_Source) (x : Int) (xs : List Int)
    (pf fc fe bd : List Scalar)
    (hm : getattr? s.attrs "MJD" = some (.series ((x :: xs).map Scalar.i)))
    (hp : getattr? s.attrs "PHOTFLAG" = some (.series pf))
    (hf : getattr? s.attrs "FLUXCAL" = some (.series fc))
    (he : getattr? s.attrs "FLUXCALERR" = some (.series fe))
    (hb : getattr? s.attrs "BAND" = some (.series bd))
    (hlp : pf.length = xs.length + 1)
    (hlf : fc.length = xs.length + 1)
    (hle : fe.length = xs.length + 1)
    (hlb : bd.length = xs.length + 1)
    (hst : StaticOk s) :
    ∃ meta, LSST_Source.get_event_table s = .ok
      ⟨[("time", (x :: xs).map (fun a => Scalar.i (a - x))),
        ("photflag", pf), ("flux", fc), ("fluxErr", fe), ("passband", bd)],
       meta⟩ := by
  obtain ⟨meta, hmeta⟩ := staticMeta_ok s LSST_Source.other_features hst
  refine ⟨meta, ?_⟩
  have h1 := getSeriesE_ok hm
  have h2 := getSeriesE_ok hp
  have h3 := getSeriesE_ok hf
  have h4 := getSeriesE_ok he
  have h5 := getSeriesE_ok hb
  have hsub := subFirst_int x xs
  simp only [LSST_Source.get_event_table, h1, h2, h3, h4, h5, bindOk,
    hsub, Table.setCol, Table.empty, Table.len, List.length_map,
    List.length_cons, hlp, hlf, hle, hlb, if_true, eq_self_iff_true,
    bindPure, List.cons_append, List.nil_append]
  rw [hmeta]
  rfl

theorem get_event_table_mismatch (s : LSST_Source) (x : Int) (xs : List Int)
    (pf fc fe bd : List Scalar)
    (hm : getattr? s.attrs "MJD" = some (.series ((x :: xs).map Scalar.i)))
    (hp : getattr? s.attrs "PHOTFLAG" = some (.series pf))
    (hf : getattr? s.attrs "FLUXCAL" = some (.series fc))
    (he : getattr? s.attrs "FLUXCALERR" = some (.series fe))
    (hb : getattr? s.attrs "BAND" = some (.series bd))
    (hne : ¬(pf.length = xs.length + 1 ∧ fc.length = xs.length + 1 ∧
             fe.length = xs.length + 1 ∧ bd.length = xs.length + 1)) :
    LSST_Source.get_event_table s = .error .valueError := by
  have h1 := getSeriesE_ok hm
  have h2 := getSeriesE_ok hp
  have h3 := getSeriesE_ok hf
  have h4 := getSeriesE_ok he
  have h5 := getSeriesE_ok hb
  have hsub := subFirst_int x xs
  by_cases hlp : pf.length = xs.length + 1
  · by_cases hlf : fc.length = xs.length + 1
    · by_cases hle : fe.length = xs.length + 1
      · by_cases hlb : bd.length = xs.length + 1
        · exact absurd ⟨hlp, hlf, hle, hlb⟩ hne
        · simp only [LSST_Source.get_event_table, h1, h2, h3, h4, h5,
            bindOk, hsub, Table.setCol, Table.empty, Table.len,
            List.length_map, List.length_cons, List.cons_append,
            List.nil_append, hlp, hlf, hle, hlb,
            if_true, if_false, eq_self_iff_true, bindErr]
      · simp only [LSST_Source.get_event_table, h1, h2, h3, h4, h5,
          bindOk, hsub, Table.setCol, Table.empty, Table.len,
          List.length_map, List.length_cons, List.cons_append,
          List.nil_append, hlp, hlf, hle,
          if_true, if_false, eq_self_iff_true, bindErr]
    · simp only [LSST_Source.get_event_table, h1, h2, h3, h4, h5,
        bindOk, hsub, Table.setCol, Table.empty, Table.len,
        List.length_map, List.length_cons, List.cons_append,
        List.nil_append, hlp, hlf,
        if_true, if_false, eq_self_iff_true, bindErr]
  · simp only [LSST_Source.get_event_table, h1, h2, h3, h4, h5,
      bindOk, hsub, Table.setCol, Table.empty, Table.len,
      List.length_map, List.length_cons, List.cons_append,
      List.nil_append, hlp,
      if_true, if_false, eq_self_iff_true, bindErr]

end EventTableLemmas

section MoreLemmas

theorem getattr?_cons_self (k : String) (v : AttrValue) (rest : AttrMap) :
    getattr? ((k, v) :: rest) k = some v := by
  simp [getattr?, List.find?_cons]

theorem getattr?_cons_ne (k' : String) (v' : AttrValue) (rest : AttrMap)
    (k : String) (h : k' ≠ k) :
    getattr? ((k', v') :: rest) k = getattr? rest k := by
  simp [getattr?, List.find?_cons, h]

theorem processedCols_map_fst (cols : List (String × CellValue)) :
    (processedCols cols).map Prod.fst =
      (cols.map Prod.fst).filter
        (fun c => decide (c ∈ LSST_Source.other_features ∨
          c ∈ LSST_Source.time_series_features)) := by
  induction cols with
  | nil => rfl
  | cons hd tl ih =>
    obtain ⟨k, cell⟩ := hd
    by_cases h : k ∈ LSST_Source.other_features ∨ k ∈ LSST_Source.time_series_features
    · simp [processedCols, if_pos h, List.filter_cons, h, ih]
    · simp [processedCols, if_neg h, List.filter_cons, h, ih]

theorem getattr?_processedCols (cols : List (String × CellValue))
    (c : String) (cell : CellValue)
    (hget : rowGet? cols c = some cell)
    (hrecog : c ∈ LSST_Source.other_features ∨ c ∈ LSST_Source.time_series_features) :
    getattr? (processedCols cols) c = some (extractFirst cell) := by
  induction cols with
  | nil => simp [rowGet?] at hget
  | cons hd tl ih =>
    obtain ⟨k, kcell⟩ := hd
    by_cases hk : k = c
    · subst hk
      have hcell : kcell = cell := by
        simpa [rowGet?, List.find?_cons] using hget
      subst hcell
      simp [processedCols, if_pos hrecog, getattr?_cons_self]
    · have hget' : rowGet? tl c = some cell := by
        simpa [rowGet?, List.find?_cons, hk] using hget
      by_cases hr : k ∈ LSST_Source.other_features ∨ k ∈ LSST_Source.time_series_features
      · simp only [processedCols, if_pos hr]
        rw [getattr?_cons_ne k _ _ c hk]
        exact ih hget'
      · simp only [processedCols, if_neg hr]
        exact ih hget'

theorem getattr?_processedCols_none (cols : List (String × CellValue))
    (c : String)
    (ho : c ∉ LSST_Source.other_features)
    (hs : c ∉ LSST_Source.time_series_features) :
    getattr? (processedCols cols) c = none := by
  induction cols with
  | nil => rfl
  | cons hd tl ih =>
    obtain ⟨k, kcell⟩ := hd
    by_cases hr : k ∈ LSST_Source.other_features ∨ k ∈ LSST_Source.time_series_features
    · have hk : k ≠ c := by
        intro h
        subst h
        rcases hr with hr | hr
        · exact ho hr
        · exact hs hr
      simp only [processedCols, if_pos hr]
      rw [getattr?_cons_ne k _ _ c hk]
      exact ih
    · simp only [processedCols, if_neg hr]
      exact ih

theorem mapE_ok_length {α β : Type} {f : α → Except PyError β} :
    ∀ {l : List α} {out : List β}, mapE f l = .ok out → out.length = l.length := by
  intro l
  induction l with
  | nil =>
    intro out h
    simp only [mapE] at h
    cases h
    rfl
  | cons x xs ih =>
    intro out h
    simp only [mapE] at h
    cases hx : f x with
    | error e => rw [hx] at h; exact absurd h (by simp [bindErr])
    | ok y =>
      rw [hx, bindOk] at h
      cases hxs : mapE f xs with
      | error e => rw [hxs] at h; exact absurd h (by simp [bindErr])
      | ok ys =>
        rw [hxs, bindOk] at h
        cases h
        simp [ih hxs]

theorem nthE_append_cons {α : Type} (pre : List α) (x : α) (suf : List α) :
    nthE (pre ++ x :: suf) pre.length = .ok x := by
  induction pre with
  | nil => rfl
  | cons a l ih =>
    simpa only [List.cons_append, nthE, List.length_cons,
      List.get?_cons_succ] using ih

theorem labelLoop_spec (tax : AttrValue → AttrValue) :
    ∀ (suf pre : List CellValue),
    LSSTSourceDataSet.labelLoop tax (pre ++ suf) pre.length suf.length =
      .ok (suf.map (fun c => tax (extractFirst c))) := by
  intro suf
  induction suf with
  | nil =>
    intro pre
    rfl
  | cons c rest ih =>
    intro pre
    have hrec := ih (pre ++ [c])
    rw [List.append_assoc, List.singleton_append, List.length_append] at hrec
    simp only [List.length_singleton] at hrec
    simp only [LSSTSourceDataSet.labelLoop, List.length_cons,
      nthE_append_cons pre c rest, bindOk, hrec, List.map_cons]

theorem colorize_ok :
    ∀ bd : List Scalar,
    (∀ b ∈ bd, (LSST_Source.lookupColor b).isSome = true) →
    ∃ cs, LSST_Source.colorize bd = .ok cs := by
  intro bd
  induction bd with
  | nil => exact fun _ => ⟨[], rfl⟩
  | cons b rest ih =>
    intro h
    obtain ⟨col, hcol⟩ :=
      Option.isSome_iff_exists.mp (h b (List.mem_cons_self _ _))
    obtain ⟨cs, hcs⟩ := ih (fun b' hb' => h b' (List.mem_cons_of_mem _ hb'))
    refine ⟨col :: cs, ?_⟩
    simp only [LSST_Source.colorize, mapE] at hcs ⊢
    simp only [hcol, bindOk, hcs]

theorem colorize_err :
    ∀ bd : List Scalar,
    (∃ b ∈ bd, LSST_Source.lookupColor b = none) →
    ∃ k, LSST_Source.colorize bd = .error (.keyError k) := by
  intro bd
  induction bd with
  | nil => rintro ⟨b, hb, -⟩; exact absurd hb (List.not_mem_nil b)
  | cons b rest ih =>
    rintro ⟨b', hb', hnone⟩
    cases hl : LSST_Source.lookupColor b with
    | none =>
      refine ⟨LSST_Source.scalarKey b, ?_⟩
      simp only [LSST_Source.colorize, mapE, hl, bindErr]
    | some col =>
      have hbrest : b' ∈ rest := by
        rcases List.mem_cons.mp hb' with rfl | h
        · rw [hl] at hnone; exact absurd hnone (by simp)
        · exact h
      obtain ⟨k, hk⟩ := ih ⟨b', hbrest, hnone⟩
      refine ⟨k, ?_⟩
      simp only [LSST_Source.colorize, mapE] at hk ⊢
      simp only [hl, bindOk, hk, bindErr]

end MoreLemmas

/-- C1: `get_dimensions` expects to unpack a 4-tuple from indexed
access, but the wrapper's indexed access returns a single
`LSST_Source` record, which Python cannot unpack; therefore
`get_dimensions` never completes successfully on any constructed
dataset, and whenever `__getitem__(0)` itself succeeds the failure is
precisely the `TypeError` of the 4-tuple unpack. -/
theorem C1_get_dimensions_never_succeeds (tax : AttrValue → AttrValue)
    (ds : LSSTSourceDataSet) :
    (∃ e, LSSTSourceDataSet.get_dimensions tax ds = .error e) ∧
    (∀ s, LSSTSourceDataSet.getitem tax ds 0 = .ok s →
      LSSTSourceDataSet.get_dimensions tax ds = .error .typeError) := by
  constructor
  · cases h : LSSTSourceDataSet.getitem tax ds 0 with
    | error e =>
      exact ⟨e, by
        simp only [LSSTSourceDataSet.get_dimensions, h, bindErr]⟩
    | ok s =>
      exact ⟨.typeError, by
        simp only [LSSTSourceDataSet.get_dimensions, h, bindOk,
          LSST_Source.unpack4, bindErr]⟩
  · intro s h
    simp only [LSSTSourceDataSet.get_dimensions, h, bindOk,
      LSST_Source.unpack4, bindErr]

/-- Witness for C1 at the one-row dataset `dsEx`. -/
theorem C1_witness :
    (∃ e, LSSTSourceDataSet.get_dimensions taxEx dsEx = .error e) ∧
    LSSTSourceDataSet.get_dimensions taxEx dsEx = .error .typeError :=
  ⟨(C1_get_dimensions_never_succeeds taxEx dsEx).1,
   (C1_get_dimensions_never_succeeds taxEx dsEx).2 rEx (by decide)⟩

/-- C6: for any dataset whose rows are well-formed, indexed access at
`row_count` (one past the end) fails with the underlying table's index
error — it never returns a default or empty record — while every index
in `[0, row_count)` succeeds and returns the `LSST_Source` record built
from that row. -/
theorem C6_index_bounds (tax : AttrValue → AttrValue)
    (ds : LSSTSourceDataSet)
    (h : ∀ r ∈ ds.parquet, RowOk r) :
    LSSTSourceDataSet.getitem tax ds ds.num_sample = .error .indexError ∧
    ∀ i, i < ds.num_sample →
      ∃ row s, ds.parquet.get? i = some row ∧
        LSSTSourceDataSet.getitem tax ds i = .ok s ∧
        LSST_Source.init tax row = .ok s := by
  constructor
  · have hnone : ds.parquet.get? ds.parquet.length = none :=
      List.get?_eq_none.mpr (le_refl _)
    simp only [LSSTSourceDataSet.getitem, LSSTSourceDataSet.num_sample, hnone]
  · intro i hi
    have hi' : i < ds.parquet.length := hi
    obtain ⟨row, hrow⟩ : ∃ row, ds.parquet.get? i = some row :=
      ⟨ds.parquet.get ⟨i, hi'⟩, List.get?_eq_get hi'⟩
    obtain ⟨s, hs⟩ := init_ok tax row (h row (List.get?_mem hrow))
    exact ⟨row, s, hrow, by
      simp only [LSSTSourceDataSet.getitem, hrow, hs], hs⟩

/-- Witness for C6 at the one-row dataset `dsEx`. -/
theorem C6_witness :
    LSSTSourceDataSet.getitem taxEx dsEx dsEx.num_sample = .error .indexError ∧
    ∃ row s, dsEx.parquet.get? 0 = some row ∧
      LSSTSourceDataSet.getitem taxEx dsEx 0 = .ok s ∧
      LSST_Source.init taxEx row = .ok s :=
  ⟨(C6_index_bounds taxEx dsEx (by decide)).1,
   (C6_index_bounds taxEx dsEx (by decide)).2 0 (by decide)⟩

/-- C7: `__init__` never validates cross-feature length agreement: any
well-formed row constructs successfully whatever the lengths of its
time-series columns; in particular the concrete row `rowMM`, whose BAND
column has three entries against five MJD entries, constructs the
record `sMM` that stores the mismatched sequences as-is, and the
mismatch is only detected later, inside `get_event_table`. -/
theorem C7_no_length_validation_at_construction
    (tax : AttrValue → AttrValue) (row : Row) (h : RowOk row) :
    (∃ s, LSST_Source.init tax row = .ok s) ∧
    LSST_Source.init taxEx rowMM = .ok sMM ∧
    getattr? sMM.attrs "MJD" = some (.series ([0, 1, 2, 3, 4].map Scalar.i)) ∧
    getattr? sMM.attrs "BAND" = some (.series [.s "u", .s "g", .s "r"]) ∧
    LSST_Source.get_event_table sMM = .error .valueError :=
  ⟨init_ok tax row h, by decide, by decide, by decide, by decide⟩

/-- Witness for C7 at the mismatched row `rowMM` itself. -/
theorem C7_witness :
    (∃ s, LSST_Source.init taxEx rowMM = .ok s) ∧
    LSST_Source.init taxEx rowMM = .ok sMM ∧
    getattr? sMM.attrs "MJD" = some (.series ([0, 1, 2, 3, 4].map Scalar.i)) ∧
    getattr? sMM.attrs "BAND" = some (.series [.s "u", .s "g", .s "r"]) ∧
    LSST_Source.get_event_table sMM = .error .valueError :=
  C7_no_length_validation_at_construction taxEx rowMM (by decide)

/-- C8: record construction from a row is deterministic — two indexed
accesses at the same index (each of which reconstructs a fresh record)
yield records that are equal, hence attribute-for-attribute
identical. -/
theorem C8_construction_deterministic (tax : AttrValue → AttrValue)
    (ds : LSSTSourceDataSet) (i : Nat) (r1 r2 : LSST_Source)
    (h1 : LSSTSourceDataSet.getitem tax ds i = .ok r1)
    (h2 : LSSTSourceDataSet.getitem tax ds i = .ok r2) :
    r1 = r2 ∧ ∀ k, getattr? r1.attrs k = getattr? r2.attrs k := by
  have heq : r1 = r2 := by
    rw [h1] at h2
    exact Except.ok.inj h2
  exact ⟨heq, fun k => by rw [heq]⟩

/-- Witness for C8 at index 0 of `dsEx`. -/
theorem C8_witness :
    rEx = rEx ∧ getattr? rEx.attrs "SNID" = getattr? rEx.attrs "SNID" :=
  ⟨(C8_construction_deterministic taxEx dsEx 0 rEx rEx
      (by decide) (by decide)).1,
   (C8_construction_deterministic taxEx dsEx 0 rEx rEx
      (by decide) (by decide)).2 "SNID"⟩

/-- C5: construction stores exactly the identity and fine-grained class
columns, the derived coarse class, every present recognized static
column (as a scalar) and every present recognized time-series column
(as a sequence); a column in neither recognized set is never stored and
causes no error. -/
theorem C5_construction_stores_exactly (tax : AttrValue → AttrValue)
    (row : Row) (ecCell snCell : CellValue)
    (hec : rowGet? row "ELASTICC_class" = some ecCell)
    (hsn : rowGet? row "SNID" = some snCell)
    (hts : TsShaped row)
    (hnd : (row.map Prod.fst).Nodup) :
    ∃ s, LSST_Source.init tax row = .ok s ∧
      s.attrs.map Prod.fst =
        special_attrs ++ (row.map Prod.fst).filter
          (fun c => decide (c ∈ LSST_Source.other_features ∨
            c ∈ LSST_Source.time_series_features)) ∧
      (∀ c v, rowGet? row c = some (CellValue.scalar v) →
        c ∈ LSST_Source.other_features →
        getattr? s.attrs c = some (.scalar v)) ∧
      (∀ c vs, rowGet? row c = some (CellValue.seq vs) →
        c ∈ LSST_Source.time_series_features →
        getattr? s.attrs c = some (.series vs)) ∧
      (∀ c, c ∉ LSST_Source.other_features →
        c ∉ LSST_Source.time_series_features →
        c ∉ special_attrs →
        getattr? s.attrs c = none) := by
  have hclosed := init_closed tax row ecCell snCell hec hsn hts hnd
  refine ⟨_, hclosed, ?_, ?_, ?_, ?_⟩
  · simp only [List.map_cons, processedCols_map_fst, special_attrs,
      List.cons_append, List.nil_append]
  · intro c v hget hmem
    obtain ⟨h1, h2, h3⟩ := recognized_not_special (Or.inl hmem)
    rw [getattr?_cons_ne _ _ _ _ (fun hcontra => h1 hcontra.symm),
        getattr?_cons_ne _ _ _ _ (fun hcontra => h2 hcontra.symm),
        getattr?_cons_ne _ _ _ _ (fun hcontra => h3 hcontra.symm)]
    exact getattr?_processedCols row c _ hget (Or.inl hmem)
  · intro c vs hget hmem
    obtain ⟨h1, h2, h3⟩ := recognized_not_special (Or.inr hmem)
    rw [getattr?_cons_ne _ _ _ _ (fun hcontra => h1 hcontra.symm),
        getattr?_cons_ne _ _ _ _ (fun hcontra => h2 hcontra.symm),
        getattr?_cons_ne _ _ _ _ (fun hcontra => h3 hcontra.symm)]
    exact getattr?_processedCols row c _ hget (Or.inr hmem)
  · intro c hco hcs hsp
    have h1 : "ELASTICC_class" ≠ c := by
      intro h
      apply hsp
      rw [← h]
      decide
    have h2 : "SNID" ≠ c := by
      intro h
      apply hsp
      rw [← h]
      decide
    have h3 : "astrophysical_class" ≠ c := by
      intro h
      apply hsp
      rw [← h]
      decide
    rw [getattr?_cons_ne _ _ _ _ h1, getattr?_cons_ne _ _ _ _ h2,
        getattr?_cons_ne _ _ _ _ h3]
    exact getattr?_processedCols_none row c hco hcs

/-- Witness for C5 at the row `rowC5`, which carries a static column, a
time-series column and an unrecognized column. -/
theorem C5_witness :
    ∃ s, LSST_Source.init taxEx rowC5 = .ok s ∧
      s.attrs.map Prod.fst =
        special_attrs ++ (rowC5.map Prod.fst).filter
          (fun c => decide (c ∈ LSST_Source.other_features ∨
            c ∈ LSST_Source.time_series_features)) ∧
      (∀ c v, rowGet? rowC5 c = some (CellValue.scalar v) →
        c ∈ LSST_Source.other_features →
        getattr? s.attrs c = some (.scalar v)) ∧
      (∀ c vs, rowGet? rowC5 c = some (CellValue.seq vs) →
        c ∈ LSST_Source.time_series_features →
        getattr? s.attrs c = some (.series vs)) ∧
      (∀ c, c ∉ LSST_Source.other_features →
        c ∉ LSST_Source.time_series_features →
        c ∉ special_attrs →
        getattr? s.attrs c = none) :=
  C5_construction_stores_exactly taxEx rowC5
    (.scalar (.s "SNII")) (.scalar (.i 9))
    (by decide) (by decide) (by decide) (by decide)

/-- With all five series attributes present and all lengths in
agreement, `get_event_table` reduces to the static-feature meta loop
followed by packaging the table. -/
theorem get_event_table_reduce (s : LSST_Source) (x : Int) (xs : List Int)
    (pf fc fe bd : List Scalar)
    (hm : getattr? s.attrs "MJD" = some (.series ((x :: xs).map Scalar.i)))
    (hp : getattr? s.attrs "PHOTFLAG" = some (.series pf))
    (hf : getattr? s.attrs "FLUXCAL" = some (.series fc))
    (he : getattr? s.attrs "FLUXCALERR" = some (.series fe))
    (hb : getattr? s.attrs "BAND" = some (.series bd))
    (hlp : pf.length = xs.length + 1)
    (hlf : fc.length = xs.length + 1)
    (hle : fe.length = xs.length + 1)
    (hlb : bd.length = xs.length + 1) :
    LSST_Source.get_event_table s =
      (mapE (fun f => do
        let v ← getattrE s f
        pure (f, v)) LSST_Source.other_features) >>=
      fun meta => .ok
        ⟨[("time", (x :: xs).map (fun a => Scalar.i (a - x))),
          ("photflag", pf), ("flux", fc), ("fluxErr", fe), ("passband", bd)],
         meta⟩ := by
  have h1 := getSeriesE_ok hm
  have h2 := getSeriesE_ok hp
  have h3 := getSeriesE_ok hf
  have h4 := getSeriesE_ok he
  have h5 := getSeriesE_ok hb
  have hsub := subFirst_int x xs
  simp only [LSST_Source.get_event_table, h1, h2, h3, h4, h5, bindOk,
    hsub, Table.setCol, Table.empty, Table.len, List.length_map,
    List.length_cons, hlp, hlf, hle, hlb, if_true, eq_self_iff_true,
    bindPure, List.cons_append, List.nil_append]
  rfl

/-- C2 counterexample: for the record `sFull`, whose MJD sequence is
[5, 3] (not ascending), the produced time column is [0, -2] — each time
minus the FIRST stored time — whereas re-basing to the minimum observed
time as the claim states would give [2, 0]; in particular the entry for
the earliest observation (the second one) is -2, not zero. -/
theorem C2_counterexample :
    (LSST_Source.get_event_table sFull).toOption.map
      (fun t => t.getCol? "time") = some (some [Scalar.i 0, Scalar.i (-2)]) ∧
    specTimeColumn [5, 3] = [Scalar.i 2, Scalar.i 0] ∧
    ([Scalar.i 0, Scalar.i (-2)] : List Scalar) ≠ [Scalar.i 2, Scalar.i 0] :=
  ⟨by decide, by decide, by decide⟩

/-- C2 (amended): the 'time' column produced by `get_event_table`
equals each observation time minus the time of the FIRST stored
observation (`MJD - MJD[0]`), so the first entry is always zero; it
equals times minus the minimum only for records whose first observation
is the earliest. -/
theorem C2_amended_time_rebased_to_first (s : LSST_Source) (x : Int)
    (xs : List Int) (pf fc fe bd : List Scalar)
    (hm : getattr? s.attrs "MJD" = some (.series ((x :: xs).map Scalar.i)))
    (hp : getattr? s.attrs "PHOTFLAG" = some (.series pf))
    (hf : getattr? s.attrs "FLUXCAL" = some (.series fc))
    (he : getattr? s.attrs "FLUXCALERR" = some (.series fe))
    (hb : getattr? s.attrs "BAND" = some (.series bd))
    (hlp : pf.length = xs.length + 1)
    (hlf : fc.length = xs.length + 1)
    (hle : fe.length = xs.length + 1)
    (hlb : bd.length = xs.length + 1)
    (hst : StaticOk s) :
    ∃ t, LSST_Source.get_event_table s = .ok t ∧
      t.getCol? "time" = some ((x :: xs).map (fun a => Scalar.i (a - x))) ∧
      ((x :: xs).map (fun a => Scalar.i (a - x))).head? = some (Scalar.i 0) := by
  obtain ⟨meta, hok⟩ :=
    get_event_table_ok s x xs pf fc fe bd hm hp hf he hb hlp hlf hle hlb hst
  refine ⟨_, hok, ?_, ?_⟩
  · simp [Table.getCol?, List.find?_cons]
  · simp

/-- Witness for the amended C2 at `sFull` (MJD values 5 then 3). -/
theorem C2_witness :
    ∃ t, LSST_Source.get_event_table sFull = .ok t ∧
      t.getCol? "time" =
        some (((5 : Int) :: [3]).map (fun a => Scalar.i (a - 5))) ∧
      (((5 : Int) :: [3]).map (fun a => Scalar.i (a - 5))).head? =
        some (Scalar.i 0) :=
  C2_amended_time_rebased_to_first sFull 5 [3]
    [.i 0, .i 4096] [.i 10, .i 20] [.i 1, .i 2] [.s "u", .s "g"]
    (by decide) (by decide) (by decide) (by decide) (by decide)
    (by decide) (by decide) (by decide) (by decide) (by decide)

/-- C3 counterexample: the record `sMM`, whose BAND sequence is shorter
than its MJD sequence, makes `get_event_table` raise the table
library's `ValueError`, not the designed assertion error with the
length-mismatch contract message. -/
theorem C3_counterexample :
    LSST_Source.get_event_table sMM = .error .valueError ∧
    errIsAssertion (LSST_Source.get_event_table sMM) = false ∧
    LSST_Source.get_event_table sMM ≠ .error (.assertionError
      "Length of time series tensor does not match the number of mjd values.") :=
  ⟨by decide, by decide, by decide⟩

/-- C3 (amended): for a record with the five time-series attributes
present (MJD numeric and nonempty), mismatched lengths make
`get_event_table` fail with the table library's length-mismatch
`ValueError` at column assignment; the designed assertion can never
fire, because assigning the time column has already fixed the row count
to the MJD length; and when all lengths agree (and every static feature
is present) the produced table's row count equals the time-series
length. -/
theorem C3_amended_mismatch_raises_valueerror (s : LSST_Source) (x : Int)
    (xs : List Int) (pf fc fe bd : List Scalar)
    (hm : getattr? s.attrs "MJD" = some (.series ((x :: xs).map Scalar.i)))
    (hp : getattr? s.attrs "PHOTFLAG" = some (.series pf))
    (hf : getattr? s.attrs "FLUXCAL" = some (.series fc))
    (he : getattr? s.attrs "FLUXCALERR" = some (.series fe))
    (hb : getattr? s.attrs "BAND" = some (.series bd)) :
    (¬(pf.length = xs.length + 1 ∧ fc.length = xs.length + 1 ∧
       fe.length = xs.length + 1 ∧ bd.length = xs.length + 1) →
      LSST_Source.get_event_table s = .error .valueError) ∧
    (∀ m, LSST_Source.get_event_table s ≠ .error (.assertionError m)) ∧
    ((pf.length = xs.length + 1 ∧ fc.length = xs.length + 1 ∧
      fe.length = xs.length + 1 ∧ bd.length = xs.length + 1) →
      StaticOk s →
      ∃ t, LSST_Source.get_event_table s = .ok t ∧
        t.len = xs.length + 1) := by
  refine ⟨fun hne => get_event_table_mismatch s x xs pf fc fe bd
    hm hp hf he hb hne, ?_, ?_⟩
  · intro m hcontra
    by_cases hall : pf.length = xs.length + 1 ∧ fc.length = xs.length + 1 ∧
        fe.length = xs.length + 1 ∧ bd.length = xs.length + 1
    · obtain ⟨hlp, hlf, hle, hlb⟩ := hall
      rw [get_event_table_reduce s x xs pf fc fe bd
        hm hp hf he hb hlp hlf hle hlb] at hcontra
      rcases staticMeta_shape s LSST_Source.other_features with
        ⟨out, hout⟩ | ⟨g, hg⟩
      · rw [hout, bindOk] at hcontra
        exact absurd hcontra (by simp)
      · rw [hg, bindErr] at hcontra
        exact absurd hcontra (by simp)
    · rw [get_event_table_mismatch s x xs pf fc fe bd
        hm hp hf he hb hall] at hcontra
      exact absurd hcontra (by simp)
  · rintro ⟨hlp, hlf, hle, hlb⟩ hst
    obtain ⟨meta, hok⟩ :=
      get_event_table_ok s x xs pf fc fe bd hm hp hf he hb hlp hlf hle hlb hst
    exact ⟨_, hok, by
      simp [Table.len, List.length_map, List.length_cons]⟩

/-- Witness for the amended C3: the mismatch branch at `sMM` and the
all-lengths-agree branch at `sFull`. -/
theorem C3_witness :
    LSST_Source.get_event_table sMM = .error .valueError ∧
    ∃ t, LSST_Source.get_event_table sFull = .ok t ∧ t.len = 1 + 1 :=
  ⟨(C3_amended_mismatch_raises_valueerror sMM 0 [1, 2, 3, 4]
      ([0, 0, 0, 0, 0].map Scalar.i) ([1, 2, 3, 4, 5].map Scalar.i)
      ([1, 1, 1, 1, 1].map Scalar.i) [.s "u", .s "g", .s "r"]
      (by decide) (by decide) (by decide) (by decide) (by decide)).1
    (by decide),
   (C3_amended_mismatch_raises_valueerror sFull 5 [3]
      [.i 0, .i 4096] [.i 10, .i 20] [.i 1, .i 2] [.s "u", .s "g"]
      (by decide) (by decide) (by decide) (by decide) (by decide)).2.2
    (by decide) (by decide)⟩

/-- C9 counterexample: `sMM` is missing the recognized static column RA
(it has no statics at all), yet `get_event_table` on it fails with
`ValueError` — a shape error from the mismatched BAND column — not with
an attribute-lookup error. -/
theorem C9_counterexample :
    "RA" ∈ LSST_Source.other_features ∧
    getattr? sMM.attrs "RA" = none ∧
    LSST_Source.get_event_table sMM = .error .valueError ∧
    errIsAttributeError (LSST_Source.get_event_table sMM) = false :=
  ⟨by decide, by decide, by decide, by decide⟩

/-- C9 (amended): for a record whose five time-series attributes are
present with equal, nonzero lengths but which is missing at least one
recognized static feature, `get_event_table` fails with an
attribute-lookup (`AttributeError`) failure instead of producing a
table. -/
theorem C9_missing_static_attribute_error (s : LSST_Source) (x : Int)
    (xs : List Int) (pf fc fe bd : List Scalar)
    (hm : getattr? s.attrs "MJD" = some (.series ((x :: xs).map Scalar.i)))
    (hp : getattr? s.attrs "PHOTFLAG" = some (.series pf))
    (hf : getattr? s.attrs "FLUXCAL" = some (.series fc))
    (he : getattr? s.attrs "FLUXCALERR" = some (.series fe))
    (hb : getattr? s.attrs "BAND" = some (.series bd))
    (hlp : pf.length = xs.length + 1)
    (hlf : fc.length = xs.length + 1)
    (hle : fe.length = xs.length + 1)
    (hlb : bd.length = xs.length + 1)
    (hmiss : ∃ f ∈ LSST_Source.other_features, getattr? s.attrs f = none) :
    ∃ g, LSST_Source.get_event_table s = .error (.attributeError g) := by
  obtain ⟨g, hg⟩ := staticMeta_err s LSST_Source.other_features hmiss
  rw [get_event_table_reduce s x xs pf fc fe bd hm hp hf he hb
    hlp hlf hle hlb, hg]
  exact ⟨g, bindErr _ _⟩

/-- Witness for the amended C9 at `sNoStatic`, which has consistent
two-observation series and no static features. -/
theorem C9_witness :
    ∃ g, LSST_Source.get_event_table sNoStatic = .error (.attributeError g) :=
  C9_missing_static_attribute_error sNoStatic 0 [1]
    ([0, 0].map Scalar.i) ([7, 8].map Scalar.i) ([1, 1].map Scalar.i)
    [.s "u", .s "g"]
    (by decide) (by decide) (by decide) (by decide) (by decide)
    (by decide) (by decide) (by decide) (by decide)
    ⟨"RA", by decide, by decide⟩

/-- C4: `get_labels` returns exactly one label per table row, in row
order, each equal to the taxonomy mapper applied to the corresponding
fine-grained class-label entry. -/
theorem C4_get_labels_maps_in_order (tax : AttrValue → AttrValue)
    (ds : LSSTSourceDataSet) (col : List CellValue)
    (hcol : LSSTSourceDataSet.columnE ds "ELASTICC_class" = .ok col) :
    LSSTSourceDataSet.get_labels tax ds =
      .ok (col.map (fun c => tax (extractFirst c))) ∧
    (col.map (fun c => tax (extractFirst c))).length = ds.num_sample := by
  have hlen : col.length = ds.parquet.length := mapE_ok_length hcol
  have hloop := labelLoop_spec tax col []
  simp only [List.nil_append, List.length_nil] at hloop
  constructor
  · simp only [LSSTSourceDataSet.get_labels, hcol, bindOk,
      LSSTSourceDataSet.num_sample, ← hlen, hloop]
  · simp [List.length_map, hlen, LSSTSourceDataSet.num_sample]

/-- Witness for C4: the three-row scenario with fine labels SNIa, SNII,
SNIa under the mapping SNIa to Ia and SNII to CC yields the coarse
labels Ia, CC, Ia. -/
theorem C4_witness :
    LSSTSourceDataSet.get_labels taxEx ds3 =
      .ok [AttrValue.scalar (.s "Ia"), AttrValue.scalar (.s "CC"),
        AttrValue.scalar (.s "Ia")] ∧
    LSSTSourceDataSet.num_sample ds3 = 3 :=
  ⟨((C4_get_labels_maps_in_order taxEx ds3
      [CellValue.scalar (.s "SNIa"), CellValue.scalar (.s "SNII"),
       CellValue.scalar (.s "SNIa")] (by decide)).1).trans (by decide),
   by decide⟩

/-- C10: `plot_flux_curve` implicitly requires every entry of the
record's passband sequence to be one of the six recognized passbands of
the colors dict; under that precondition the per-observation color
lookup never fails, and for any record containing an unrecognized
passband value the operation fails with a key-lookup error before
drawing anything. -/
theorem C10_passband_color_lookup (s : LSST_Source) (bd : List Scalar)
    (hband : getattr? s.attrs "BAND" = some (.series bd)) :
    ((∀ b ∈ bd, (LSST_Source.lookupColor b).isSome = true) →
      ∃ cs, LSST_Source.colorize bd = .ok cs) ∧
    ((∃ b ∈ bd, LSST_Source.lookupColor b = none) →
      ∃ k, LSST_Source.plot_flux_curve s = .error (.keyError k)) := by
  constructor
  · exact colorize_ok bd
  · intro hbad
    obtain ⟨k, hk⟩ := colorize_err bd hbad
    have hb := getSeriesE_ok hband
    refine ⟨k, ?_⟩
    simp only [LSST_Source.plot_flux_curve, hb, bindOk, hk, bindErr]

/-- Witness for C10: the all-recognized branch at `sFull` (bands u, g)
and the failing branch at `sBadBand` (band q). -/
theorem C10_witness :
    (∃ cs, LSST_Source.colorize [Scalar.s "u", Scalar.s "g"] = .ok cs) ∧
    (∃ k, LSST_Source.plot_flux_curve sBadBand = .error (.keyError k)) :=
  ⟨(C10_passband_color_lookup sFull [Scalar.s "u", Scalar.s "g"]
      (by decide)).1 (by decide),
   (C10_passband_color_lookup sBadBand [Scalar.s "u", Scalar.s "q"]
      (by decide)).2 ⟨Scalar.s "q", by decide, by decide⟩⟩

end AstroMCAD
